import Mathlib

/-!
Shallow embedding of the psychrometric core of the HVAC-Psychrometric-Calculator
repository (psychro_app): the property-solver adapter (psychrolib_wrapper.py),
the AirState value object (air_state.py), the process operators
(hvac_processes.py) and the AHU / FCU system models (ahu_model.py,
fcu_model.py).  Python floats are modelled as exact rationals; the opaque
psychrolib property oracle is modelled as a record of functions returning
`Option ℚ` (`none` models a raised ValueError).  Fallible operations return
`Option`; `none` models Python's `None` result.
-/

/-- The six named moist-air properties accepted as keyword arguments. -/
inductive PropKey where
  | tdb
  | rh
  | twb
  | w
  | tdp
  | h
deriving DecidableEq, Repr

/-- The opaque psychrolib oracle: one field per psychrolib primitive the
wrapper calls.  Each returns `none` when the underlying routine would raise
a ValueError (input outside the physically valid envelope). -/
structure PsyLib where
  getHumRatioFromRelHum : ℚ → ℚ → ℚ → Option ℚ
  getTWetBulbFromRelHum : ℚ → ℚ → ℚ → Option ℚ
  getTDewPointFromRelHum : ℚ → ℚ → Option ℚ
  getMoistAirEnthalpy : ℚ → ℚ → Option ℚ
  getMoistAirVolume : ℚ → ℚ → ℚ → Option ℚ
  getRelHumFromHumRatio : ℚ → ℚ → ℚ → Option ℚ
  getTWetBulbFromHumRatio : ℚ → ℚ → ℚ → Option ℚ
  getTDewPointFromHumRatio : ℚ → ℚ → ℚ → Option ℚ
  getHumRatioFromTWetBulb : ℚ → ℚ → ℚ → Option ℚ
  getHumRatioFromTDewPoint : ℚ → ℚ → Option ℚ
  getTDryBulbFromEnthalpyAndHumRatio : ℚ → ℚ → Option ℚ

/-- Keyword-argument list: Python guarantees distinct keys in `**kwargs`. -/
abbrev Kwargs := List (PropKey × ℚ)

/-- `kwargs.get(k)`: value of key `k`, if present. -/
def Kwargs.getArg (kwargs : Kwargs) (k : PropKey) : Option ℚ :=
  (kwargs.find? (fun p => decide (p.1 = k))).map (fun p => p.2)

/-- Membership of key `k` in the kwargs key set. -/
def Kwargs.hasKey (kwargs : Kwargs) (k : PropKey) : Bool :=
  (kwargs.getArg k).isSome

/-- The full seven-property result of `get_all_properties`, plus pressure
(the dictionary built as `final_props`; each branch sets all seven keys). -/
structure FullProps where
  tdb : ℚ
  twb : ℚ
  rh : ℚ
  w : ℚ
  h : ℚ
  tdp : ℚ
  v : ℚ
  pressure_pa : ℚ
deriving DecidableEq, Repr

/-- `psychrolib_wrapper.get_all_properties`: dispatch on the kwargs key set to
one of the five supported input-pair branches; any psychrolib ValueError
(`none` from the oracle) aborts the whole computation. -/
def get_all_properties (psy : PsyLib) (pressure_pa : ℚ) (kwargs : Kwargs) :
    Option FullProps :=
  if kwargs.length ≠ 2 then none
  else if kwargs.hasKey .tdb && kwargs.hasKey .rh then
    match kwargs.getArg .tdb, kwargs.getArg .rh with
    | some tdb, some rh => do
      let w1 ← psy.getHumRatioFromRelHum tdb rh pressure_pa
      let twb1 ← psy.getTWetBulbFromRelHum tdb rh pressure_pa
      let tdp1 ← psy.getTDewPointFromRelHum tdb rh
      let h1 ← psy.getMoistAirEnthalpy tdb w1
      let v1 ← psy.getMoistAirVolume tdb w1 pressure_pa
      return ⟨tdb, twb1, rh, w1, h1, tdp1, v1, pressure_pa⟩
    | _, _ => none
  else if kwargs.hasKey .tdb && kwargs.hasKey .w then
    match kwargs.getArg .tdb, kwargs.getArg .w with
    | some tdb, some w => do
      let rh1 ← psy.getRelHumFromHumRatio tdb w pressure_pa
      let twb1 ← psy.getTWetBulbFromHumRatio tdb w pressure_pa
      let tdp1 ← psy.getTDewPointFromHumRatio tdb w pressure_pa
      let h1 ← psy.getMoistAirEnthalpy tdb w
      let v1 ← psy.getMoistAirVolume tdb w pressure_pa
      return ⟨tdb, twb1, rh1, w, h1, tdp1, v1, pressure_pa⟩
    | _, _ => none
  else if kwargs.hasKey .tdb && kwargs.hasKey .twb then
    match kwargs.getArg .tdb, kwargs.getArg .twb with
    | some tdb, some twb0 => do
      let twb := if twb0 > tdb then tdb else twb0
      let w1 ← psy.getHumRatioFromTWetBulb tdb twb pressure_pa
      let rh1 ← psy.getRelHumFromHumRatio tdb w1 pressure_pa
      let tdp1 ← psy.getTDewPointFromHumRatio tdb w1 pressure_pa
      let h1 ← psy.getMoistAirEnthalpy tdb w1
      let v1 ← psy.getMoistAirVolume tdb w1 pressure_pa
      return ⟨tdb, twb, rh1, w1, h1, tdp1, v1, pressure_pa⟩
    | _, _ => none
  else if kwargs.hasKey .tdb && kwargs.hasKey .tdp then
    match kwargs.getArg .tdb, kwargs.getArg .tdp with
    | some tdb, some tdp0 => do
      let tdp := if tdp0 > tdb then tdb else tdp0
      let w1 ← psy.getHumRatioFromTDewPoint tdp pressure_pa
      let rh1 ← psy.getRelHumFromHumRatio tdb w1 pressure_pa
      let twb1 ← psy.getTWetBulbFromHumRatio tdb w1 pressure_pa
      let h1 ← psy.getMoistAirEnthalpy tdb w1
      let v1 ← psy.getMoistAirVolume tdb w1 pressure_pa
      return ⟨tdb, twb1, rh1, w1, h1, tdp, v1, pressure_pa⟩
    | _, _ => none
  else if kwargs.hasKey .h && kwargs.hasKey .w then
    match kwargs.getArg .h, kwargs.getArg .w with
    | some h, some w => do
      let tdb1 ← psy.getTDryBulbFromEnthalpyAndHumRatio h w
      let rh1 ← psy.getRelHumFromHumRatio tdb1 w pressure_pa
      let twb1 ← psy.getTWetBulbFromHumRatio tdb1 w pressure_pa
      let tdp1 ← psy.getTDewPointFromHumRatio tdb1 w pressure_pa
      let v1 ← psy.getMoistAirVolume tdb1 w pressure_pa
      return ⟨tdb1, twb1, rh1, w, h, tdp1, v1, pressure_pa⟩
    | _, _ => none
  else none

/-- `AirState`: label, fixed pressure, and the seven optional thermodynamic
properties (`None` in Python modelled as `none`). -/
structure AirState where
  label : String
  pressure : ℚ
  tdb : Option ℚ
  twb : Option ℚ
  rh : Option ℚ
  w : Option ℚ
  h : Option ℚ
  tdp : Option ℚ
  v : Option ℚ
deriving DecidableEq, Repr

/-- `AirState._invalidate_state`: set all seven thermodynamic properties to
absent; pressure and label untouched. -/
def AirState.invalidate_state (s : AirState) : AirState :=
  { s with tdb := none, twb := none, rh := none, w := none, h := none,
           tdp := none, v := none }

/-- `AirState.is_valid`: `tdb`, `w` and `h` all present. -/
def AirState.is_valid (s : AirState) : Bool :=
  s.tdb.isSome && s.w.isSome && s.h.isSome

/-- `AirState.update`: zero kwargs is a warning-only no-op returning current
validity; any other count than two invalidates; with exactly two, a solver
success replaces all seven properties together, a solver failure invalidates.
Pressure is reused and never written. -/
def AirState.update (psy : PsyLib) (s : AirState) (kwargs : Kwargs) :
    AirState × Bool :=
  if kwargs.isEmpty then (s, s.is_valid)
  else if kwargs.length ≠ 2 then (s.invalidate_state, false)
  else
    match get_all_properties psy s.pressure kwargs with
    | some p =>
      let s1 : AirState :=
        { s with tdb := some p.tdb, twb := some p.twb, rh := some p.rh,
                 w := some p.w, h := some p.h, tdp := some p.tdp,
                 v := some p.v }
      (s1, s1.is_valid)
    | none => (s.invalidate_state, false)

/-- `AirState.__init__`: all properties start absent, then `update(**kwargs)`
runs once. -/
def AirState.make (psy : PsyLib) (pressure_pa : ℚ) (label : String)
    (kwargs : Kwargs) : AirState :=
  (AirState.update psy ⟨label, pressure_pa, none, none, none, none, none,
    none, none⟩ kwargs).1

/-- `constants.H_STEAM_J_KG`: enthalpy of injected steam, J/kg. -/
def H_STEAM_J_KG : ℚ := 2676000

/-- The near-zero flow gate `1e-9` used by the operators and models. -/
def EPS_FLOW : ℚ := 1 / 1000000000

/-- `hvac_processes.mix_air`: mass-flow-weighted mixing of `w` and `h`,
solved at the first stream's pressure.  Degenerate total flow falls back to
the dominant stream; invalid states or negative flows give `none`. -/
def mix_air (psy : PsyLib) (state1 : AirState) (mass_flow1 : ℚ)
    (state2 : AirState) (mass_flow2 : ℚ) : Option AirState :=
  if !(state1.is_valid && state2.is_valid) then none
  else if mass_flow1 < 0 ∨ mass_flow2 < 0 then none
  else
    let total_mass_flow := mass_flow1 + mass_flow2
    if total_mass_flow ≤ EPS_FLOW then
      if mass_flow1 > mass_flow2 then some state1 else some state2
    else
      match state1.w, state1.h, state2.w, state2.h with
      | some w1, some h1, some w2, some h2 =>
        let mix_w := (mass_flow1 * w1 + mass_flow2 * w2) / total_mass_flow
        let mix_h := (mass_flow1 * h1 + mass_flow2 * h2) / total_mass_flow
        let mix_pressure := state1.pressure
        let mix_state := AirState.make psy mix_pressure "Mixed Air" []
        let r := AirState.update psy mix_state [(.h, mix_h), (.w, mix_w)]
        if r.2 then some r.1 else none
      | _, _, _, _ => none

/-- `hvac_processes.sensible_heat`: `h` shifted by `q/mass_flow`, `w`
unchanged, re-solved from the `{h, w}` pair. -/
def sensible_heat (psy : PsyLib) (state_in : AirState) (q_sensible : ℚ)
    (mass_flow : ℚ) : Option AirState :=
  if !state_in.is_valid then none
  else if mass_flow ≤ EPS_FLOW then none
  else
    match state_in.h, state_in.w with
    | some hin, some win =>
      let delta_h := q_sensible / mass_flow
      let h_out := hin + delta_h
      let w_out := win
      let state0 := AirState.make psy state_in.pressure
        (state_in.label ++ "_SensHeat") []
      let r := AirState.update psy state0 [(.h, h_out), (.w, w_out)]
      if r.2 then some r.1 else none
    | _, _ => none

/-- The ADP reference computation of `cooling_coil_simplified`: a fresh
`AirState` at the inlet pressure updated with `{tdb = adp_temp, rh = 1}`
(the coil surface assumed saturated), paired with the update's flag. -/
def adp_reference (psy : PsyLib) (pressure adp_temp : ℚ) : AirState × Bool :=
  AirState.update psy (AirState.make psy pressure "ADP_Internal" [])
    [(.tdb, adp_temp), (.rh, 1)]

/-- `hvac_processes.cooling_coil_simplified`: ADP/bypass-factor model.  The
ADP reference is the saturated state at `adp_temp`; outlet `w` and `h`
interpolate between ADP and inlet with weight `bypass_factor`.  `mass_flow`
is accepted but unused. -/
def cooling_coil_simplified (psy : PsyLib) (state_in : AirState)
    (mass_flow : ℚ) (adp_temp : ℚ) (bypass_factor : ℚ) : Option AirState :=
  if !state_in.is_valid then none
  else if ¬(0 ≤ bypass_factor ∧ bypass_factor ≤ 1) then none
  else
    let adp := adp_reference psy state_in.pressure adp_temp
    if !adp.2 then none
    else
      match adp.1.w, adp.1.h, state_in.w, state_in.h with
      | some wa, some ha, some win, some hin =>
        let w_out := wa + bypass_factor * (win - wa)
        let h_out := ha + bypass_factor * (hin - ha)
        let state0 := AirState.make psy state_in.pressure
          (state_in.label ++ "_CoilOut") []
        let r := AirState.update psy state0 [(.h, h_out), (.w, w_out)]
        if r.2 then some r.1 else none
      | _, _, _, _ => none

/-- `hvac_processes.steam_humidify`: negative added water clamps to zero;
zero added water returns the input state itself; otherwise `w` and `h` are
incremented and the state re-solved from `{h, w}`. -/
def steam_humidify (psy : PsyLib) (state_in : AirState) (mass_flow : ℚ)
    (water_mass_flow_added : ℚ) : Option AirState :=
  if !state_in.is_valid then none
  else if mass_flow ≤ EPS_FLOW then none
  else
    let water := if water_mass_flow_added < 0 then 0 else water_mass_flow_added
    if water = 0 then some state_in
    else
      match state_in.w, state_in.h with
      | some win, some hin =>
        let w_added := water / mass_flow
        let w_out := win + w_added
        let h_added := water * H_STEAM_J_KG / mass_flow
        let h_out := hin + h_added
        let state0 := AirState.make psy state_in.pressure
          (state_in.label ++ "_Humidified") []
        let r := AirState.update psy state0 [(.h, h_out), (.w, w_out)]
        if r.2 then some r.1 else none
      | _, _ => none

/-- The AHU state table: one slot per named pipeline step. -/
structure AHUStates where
  OA : Option AirState
  RA : Option AirState
  MA : Option AirState
  CC_Out : Option AirState
  HC_Out : Option AirState
  HUM_Out : Option AirState
  SA : Option AirState
deriving DecidableEq, Repr

/-- `AHUModel._reset_states`: every slot absent. -/
def resetAHUStates : AHUStates := ⟨none, none, none, none, none, none, none⟩

/-- `AHUModel`: fixed pressure plus the mutable state table. -/
structure AHUModel where
  pressure : ℚ
  states : AHUStates
deriving DecidableEq, Repr

/-- Dictionary lookup `self.states.get(label)` for the AHU table. -/
def AHUStates.get (t : AHUStates) (label : String) : Option AirState :=
  if label = "OA" then t.OA
  else if label = "RA" then t.RA
  else if label = "MA" then t.MA
  else if label = "CC_Out" then t.CC_Out
  else if label = "HC_Out" then t.HC_Out
  else if label = "HUM_Out" then t.HUM_Out
  else if label = "SA" then t.SA
  else none

/-- `AHUModel.set_inlet_conditions`: reset the table, build fresh OA and RA
states, keep them only if both are valid; reset again on failure. -/
def AHUModel.set_inlet_conditions (psy : PsyLib) (m : AHUModel)
    (oa_tdb oa_rh ra_tdb ra_rh : ℚ) : AHUModel × Bool :=
  let oa_state := AirState.make psy m.pressure "OA" [(.tdb, oa_tdb), (.rh, oa_rh)]
  let ra_state := AirState.make psy m.pressure "RA" [(.tdb, ra_tdb), (.rh, ra_rh)]
  if oa_state.is_valid && ra_state.is_valid then
    let t := { resetAHUStates with OA := some oa_state, RA := some ra_state }
    ({ m with states := t }, true)
  else
    ({ m with states := resetAHUStates }, false)

/-- Outcome of one optional pipeline step: updated table plus current state,
a recorded failure (table as mutated so far), or an uncaught exception
(`crash`, e.g. the missing `adiabatic_humidify` attribute). -/
inductive StepRes where
  | ok (s : AHUStates) (cur : AirState)
  | fail (s : AHUStates)
  | crash
deriving DecidableEq, Repr

/-- The optional sensible-heat step into the `HC_Out` slot, shared by the
cooling cycle (reheat) and the heating cycle (heating coil): applied only
for positive heat, pass-through otherwise. -/
def ahuHeatStep (psy : PsyLib) (total_flow q_watts : ℚ) (s : AHUStates)
    (cur : AirState) : StepRes :=
  if q_watts > 0 then
    match sensible_heat psy cur q_watts total_flow with
    | some st => .ok { s with HC_Out := some st } st
    | none => .fail { s with HC_Out := none }
  else .ok { s with HC_Out := some cur } cur

/-- The humidifier step shared by both AHU cycles: steam when selected with a
positive parameter, crash on the adiabatic branch (the called function does
not exist in `hvac_processes`), pass-through otherwise. -/
def ahuHumidStep (psy : PsyLib) (total_flow : ℚ) (humidifier_type : String)
    (humidifier_param : ℚ) (s : AHUStates) (cur : AirState) : StepRes :=
  if humidifier_type = "Steam" ∧ humidifier_param > 0 then
    match steam_humidify psy cur total_flow humidifier_param with
    | some st => .ok { s with HUM_Out := some st } st
    | none => .fail { s with HUM_Out := none }
  else if humidifier_type = "Adiabatic" ∧ humidifier_param > 0 then .crash
  else .ok { s with HUM_Out := some cur } cur

/-- The supply-fan step shared by both AHU cycles: sensible heat when
`fan_heat_watts > 0`, pass-through otherwise. -/
def ahuFanStep (psy : PsyLib) (total_flow fan_heat_watts : ℚ)
    (s : AHUStates) (cur : AirState) : StepRes :=
  if fan_heat_watts > 0 then
    match sensible_heat psy cur fan_heat_watts total_flow with
    | some st => .ok { s with SA := some st } st
    | none => .fail { s with SA := none }
  else .ok { s with SA := some cur } cur

/-- `AHUModel.run_cooling_cycle`: Mix → Cool → optional Reheat → optional
Humidify → optional Fan.  `none` models an uncaught Python exception;
`some (m, b)` is a normal return `b` with the table as mutated. -/
def AHUModel.run_cooling_cycle (psy : PsyLib) (m : AHUModel)
    (oa_mass_flow ra_mass_flow cc_adp cc_bf reheat_q_watts : ℚ)
    (humidifier_type : String) (humidifier_param fan_heat_watts : ℚ) :
    Option (AHUModel × Bool) :=
  match m.states.OA, m.states.RA with
  | some oa, some ra =>
    let total_flow := oa_mass_flow + ra_mass_flow
    if total_flow ≤ EPS_FLOW then some (m, false)
    else
      let ma? := mix_air psy oa oa_mass_flow ra ra_mass_flow
      let s1 := { m.states with MA := ma? }
      match ma? with
      | none => some ({ m with states := s1 }, false)
      | some ma =>
        let cc? := cooling_coil_simplified psy ma total_flow cc_adp cc_bf
        let s2 := { s1 with CC_Out := cc? }
        match cc? with
        | none => some ({ m with states := s2 }, false)
        | some cc =>
          match ahuHeatStep psy total_flow reheat_q_watts s2 cc with
          | .crash => none
          | .fail s => some ({ m with states := s }, false)
          | .ok s3 cur3 =>
            match ahuHumidStep psy total_flow humidifier_type humidifier_param
                s3 cur3 with
            | .crash => none
            | .fail s => some ({ m with states := s }, false)
            | .ok s4 cur4 =>
              match ahuFanStep psy total_flow fan_heat_watts s4 cur4 with
              | .crash => none
              | .fail s => some ({ m with states := s }, false)
              | .ok s5 _ => some ({ m with states := s5 }, true)
  | _, _ => some (m, false)

/-- `AHUModel.run_heating_cycle`: Mix → Cool bypassed (pass-through) →
optional Heat → optional Humidify → optional Fan. -/
def AHUModel.run_heating_cycle (psy : PsyLib) (m : AHUModel)
    (oa_mass_flow ra_mass_flow heating_q_sensible : ℚ)
    (humidifier_type : String) (humidifier_param fan_heat_watts : ℚ) :
    Option (AHUModel × Bool) :=
  match m.states.OA, m.states.RA with
  | some oa, some ra =>
    let total_flow := oa_mass_flow + ra_mass_flow
    if total_flow ≤ EPS_FLOW then some (m, false)
    else
      let ma? := mix_air psy oa oa_mass_flow ra ra_mass_flow
      let s1 := { m.states with MA := ma? }
      match ma? with
      | none => some ({ m with states := s1 }, false)
      | some ma =>
        let s2 := { s1 with CC_Out := some ma }
        match ahuHeatStep psy total_flow heating_q_sensible s2 ma with
        | .crash => none
        | .fail s => some ({ m with states := s }, false)
        | .ok s3 cur3 =>
          match ahuHumidStep psy total_flow humidifier_type humidifier_param
              s3 cur3 with
          | .crash => none
          | .fail s => some ({ m with states := s }, false)
          | .ok s4 cur4 =>
            match ahuFanStep psy total_flow fan_heat_watts s4 cur4 with
            | .crash => none
            | .fail s => some ({ m with states := s }, false)
            | .ok s5 _ => some ({ m with states := s5 }, true)
  | _, _ => some (m, false)

/-- `AHUModel.get_state`. -/
def AHUModel.get_state (m : AHUModel) (label : String) : Option AirState :=
  m.states.get label

/-- The FCU state table. -/
structure FCUStates where
  Entering : Option AirState
  Coil_Out : Option AirState
  Supply : Option AirState
deriving DecidableEq, Repr

/-- `FCUModel._reset_states`. -/
def resetFCUStates : FCUStates := ⟨none, none, none⟩

/-- `FCUModel`: fixed pressure plus the state table. -/
structure FCUModel where
  pressure : ℚ
  states : FCUStates
deriving DecidableEq, Repr

/-- Dictionary lookup `self.states.get(label)` for the FCU table. -/
def FCUStates.get (t : FCUStates) (label : String) : Option AirState :=
  if label = "Entering" then t.Entering
  else if label = "Coil_Out" then t.Coil_Out
  else if label = "Supply" then t.Supply
  else none

/-- `FCUModel.set_entering_air`: reset, build the entering state, keep it
only if valid; reset again on failure. -/
def FCUModel.set_entering_air (psy : PsyLib) (m : FCUModel)
    (tdb rh : ℚ) (label : String) : FCUModel × Bool :=
  let entering_state := AirState.make psy m.pressure label [(.tdb, tdb), (.rh, rh)]
  if entering_state.is_valid then
    ({ m with states := { resetFCUStates with Entering := some entering_state } },
     true)
  else
    ({ m with states := resetFCUStates }, false)

/-- `FCUModel.run_cooling_cycle`: coil then optional fan heat. -/
def FCUModel.run_cooling_cycle (psy : PsyLib) (m : FCUModel)
    (mass_flow cc_adp cc_bf fan_heat_watts : ℚ) : FCUModel × Bool :=
  match m.states.Entering with
  | none => (m, false)
  | some entering =>
    if mass_flow ≤ EPS_FLOW then (m, false)
    else
      let co? := cooling_coil_simplified psy entering mass_flow cc_adp cc_bf
      let s1 := { m.states with Coil_Out := co? }
      match co? with
      | none => ({ m with states := s1 }, false)
      | some co =>
        let sup? := if fan_heat_watts > 0 then
            sensible_heat psy co fan_heat_watts mass_flow
          else some co
        let s2 := { s1 with Supply := sup? }
        match sup? with
        | none => ({ m with states := s2 }, false)
        | some _ => ({ m with states := s2 }, true)

/-- `FCUModel.run_heating_cycle`: optional sensible heating then optional fan
heat; a non-positive heating power passes the entering state through. -/
def FCUModel.run_heating_cycle (psy : PsyLib) (m : FCUModel)
    (mass_flow heating_q_sensible fan_heat_watts : ℚ) : FCUModel × Bool :=
  match m.states.Entering with
  | none => (m, false)
  | some entering =>
    if mass_flow ≤ EPS_FLOW then (m, false)
    else
      let co? := if heating_q_sensible > 0 then
          sensible_heat psy entering heating_q_sensible mass_flow
        else some entering
      let s1 := { m.states with Coil_Out := co? }
      match co? with
      | none => ({ m with states := s1 }, false)
      | some co =>
        let sup? := if fan_heat_watts > 0 then
            sensible_heat psy co fan_heat_watts mass_flow
          else some co
        let s2 := { s1 with Supply := sup? }
        match sup? with
        | none => ({ m with states := s2 }, false)
        | some _ => ({ m with states := s2 }, true)

/-- `FCUModel.get_state`. -/
def FCUModel.get_state (m : FCUModel) (label : String) : Option AirState :=
  m.states.get label

/-- The shared body of `AHUModel.get_process_line` and
`FCUModel.get_process_line`, over the model's lookup function: the two
endpoint states when both are present, valid and numerically distinguishable
(`|Δh| ≥ 10` or `|Δw| ≥ 1e-6`); `none` otherwise. -/
def process_line_of (lookup : String → Option AirState)
    (start_label end_label : String) : Option (List AirState) :=
  match lookup start_label, lookup end_label with
  | some start_state, some end_state =>
    if start_state.is_valid && end_state.is_valid then
      match start_state.h, end_state.h, start_state.w, end_state.w with
      | some sh, some eh, some sw, some ew =>
        if |sh - eh| < 10 ∧ |sw - ew| < 1 / 1000000 then none
        else some [start_state, end_state]
      | _, _, _, _ => none
    else none
  | _, _ => none

/-- `AHUModel.get_process_line`. -/
def AHUModel.get_process_line (m : AHUModel) (start_label end_label : String) :
    Option (List AirState) :=
  process_line_of m.get_state start_label end_label

/-- `FCUModel.get_process_line`. -/
def FCUModel.get_process_line (m : FCUModel) (start_label end_label : String) :
    Option (List AirState) :=
  process_line_of m.get_state start_label end_label

/-- A concrete total oracle used to instantiate witnesses: every primitive
succeeds with a fixed plausible value. -/
def toyPsy : PsyLib :=
  { getHumRatioFromRelHum := fun _ _ _ => some (8/1000)
    getTWetBulbFromRelHum := fun _ _ _ => some 18
    getTDewPointFromRelHum := fun _ _ => some 14
    getMoistAirEnthalpy := fun _ _ => some 50000
    getMoistAirVolume := fun _ _ _ => some (17/20)
    getRelHumFromHumRatio := fun _ _ _ => some (1/2)
    getTWetBulbFromHumRatio := fun _ _ _ => some 18
    getTDewPointFromHumRatio := fun _ _ _ => some 14
    getHumRatioFromTWetBulb := fun _ _ _ => some (8/1000)
    getHumRatioFromTDewPoint := fun _ _ => some (8/1000)
    getTDryBulbFromEnthalpyAndHumRatio := fun _ _ => some 25 }

/-- A concrete valid air state at standard pressure. -/
def stateA : AirState :=
  ⟨"A", 101325, some 25, some 18, some (1/2), some (8/1000), some 50000,
   some 14, some (17/20)⟩

/-- A concrete valid air state at a different (reduced) pressure. -/
def stateB : AirState :=
  ⟨"B", 90000, some 30, some 20, some (3/5), some (12/1000), some 60000,
   some 16, some (9/10)⟩

/-- The `{h, w}` dispatch of `get_all_properties`, unfolded: the two inputs
are echoed back and `tdb` is derived by the inverse enthalpy solve. -/
theorem gap_hw (psy : PsyLib) (p hq wq : ℚ) :
    get_all_properties psy p [(.h, hq), (.w, wq)] =
      (psy.getTDryBulbFromEnthalpyAndHumRatio hq wq).bind (fun tdb1 =>
      (psy.getRelHumFromHumRatio tdb1 wq p).bind (fun rh1 =>
      (psy.getTWetBulbFromHumRatio tdb1 wq p).bind (fun twb1 =>
      (psy.getTDewPointFromHumRatio tdb1 wq p).bind (fun tdp1 =>
      (psy.getMoistAirVolume tdb1 wq p).bind (fun v1 =>
        some ⟨tdb1, twb1, rh1, wq, hq, tdp1, v1, p⟩))))) := rfl

/-- The `{tdb, rh}` dispatch of `get_all_properties`, unfolded: the two
inputs are echoed back. -/
theorem gap_tdb_rh (psy : PsyLib) (p t r : ℚ) :
    get_all_properties psy p [(.tdb, t), (.rh, r)] =
      (psy.getHumRatioFromRelHum t r p).bind (fun w1 =>
      (psy.getTWetBulbFromRelHum t r p).bind (fun twb1 =>
      (psy.getTDewPointFromRelHum t r).bind (fun tdp1 =>
      (psy.getMoistAirEnthalpy t w1).bind (fun h1 =>
      (psy.getMoistAirVolume t w1 p).bind (fun v1 =>
        some ⟨t, twb1, r, w1, h1, tdp1, v1, p⟩))))) := rfl

/-- A solver success on the `{h, w}` pair echoes `h`, `w` and the pressure. -/
theorem gap_hw_echo (psy : PsyLib) (p hq wq : ℚ) (r : FullProps)
    (hr : get_all_properties psy p [(.h, hq), (.w, wq)] = some r) :
    r.h = hq ∧ r.w = wq ∧ r.pressure_pa = p := by
  rw [gap_hw] at hr
  simp only [Option.bind_eq_some] at hr
  obtain ⟨tdb1, _, rh1, _, twb1, _, tdp1, _, v1, _, hr⟩ := hr
  cases hr
  exact ⟨rfl, rfl, rfl⟩

/-- A solver success on the `{tdb, rh}` pair echoes `tdb`, `rh` and the
pressure. -/
theorem gap_tdb_rh_echo (psy : PsyLib) (p t r0 : ℚ) (r : FullProps)
    (hr : get_all_properties psy p [(.tdb, t), (.rh, r0)] = some r) :
    r.tdb = t ∧ r.rh = r0 ∧ r.pressure_pa = p := by
  rw [gap_tdb_rh] at hr
  simp only [Option.bind_eq_some] at hr
  obtain ⟨w1, _, twb1, _, tdp1, _, h1, _, v1, _, hr⟩ := hr
  cases hr
  exact ⟨rfl, rfl, rfl⟩

/-- `update` with an empty kwargs dictionary is a no-op returning the current
validity. -/
theorem update_empty (psy : PsyLib) (s : AirState) :
    AirState.update psy s [] = (s, s.is_valid) := rfl

/-- `update` on a two-element kwargs list steps to the solver dispatch. -/
theorem update_two (psy : PsyLib) (s : AirState) (k1 k2 : PropKey)
    (v1 v2 : ℚ) :
    AirState.update psy s [(k1, v1), (k2, v2)] =
      match get_all_properties psy s.pressure [(k1, v1), (k2, v2)] with
      | some p =>
        let s1 : AirState :=
          { s with tdb := some p.tdb, twb := some p.twb, rh := some p.rh,
                   w := some p.w, h := some p.h, tdp := some p.tdp,
                   v := some p.v }
        (s1, s1.is_valid)
      | none => (s.invalidate_state, false) := rfl

/-- On a two-element kwargs list, the updated state keeps the pressure, and
a `true` flag means all seven fields were replaced from one solver result. -/
theorem update_hw_spec (psy : PsyLib) (s : AirState) (hq wq : ℚ) :
    (AirState.update psy s [(.h, hq), (.w, wq)]).1.pressure = s.pressure ∧
    ((AirState.update psy s [(.h, hq), (.w, wq)]).2 = true →
      (AirState.update psy s [(.h, hq), (.w, wq)]).1.h = some hq ∧
      (AirState.update psy s [(.h, hq), (.w, wq)]).1.w = some wq) := by
  rw [update_two]
  cases hgap : get_all_properties psy s.pressure [(.h, hq), (.w, wq)] with
  | none => exact ⟨rfl, by intro hb; cases hb⟩
  | some r =>
    obtain ⟨rh, rw, rp⟩ := gap_hw_echo psy s.pressure hq wq r hgap
    exact ⟨rfl, fun _ => ⟨by simp [rh], by simp [rw]⟩⟩

/-- The flow gate is below all ordinary flows used in the witnesses. -/
theorem eps_lt_two : EPS_FLOW < 2 := by norm_num [EPS_FLOW]

/-- C9: for every valid input state, ADP temperature and bypass factor in
[0,1], the result of cooling_coil_simplified is independent of the mass_flow
argument: two calls differing only in mass_flow return identical results. -/
theorem cooling_coil_mass_flow_independent (psy : PsyLib) (s : AirState)
    (m1 m2 adp bf : ℚ) (hv : s.is_valid = true) (hbf : 0 ≤ bf ∧ bf ≤ 1) :
    cooling_coil_simplified psy s m1 adp bf =
      cooling_coil_simplified psy s m2 adp bf := rfl

/-- C5: for a valid input state and positive air mass flow, steam_humidify
with zero added water returns the input state itself (no new state is
built), and negative added water is clamped to zero, so it does too. -/
theorem steam_humidify_zero_identity (psy : PsyLib) (s : AirState)
    (m w_add : ℚ) (hv : s.is_valid = true) (hm : EPS_FLOW < m)
    (hw : w_add ≤ 0) : steam_humidify psy s m w_add = some s := by
  have hm' : ¬ (m ≤ EPS_FLOW) := not_le.mpr hm
  rcases lt_or_eq_of_le hw with hlt | heq
  · simp [steam_humidify, hv, hm', hlt]
  · subst heq
    simp [steam_humidify, hv, hm']

/-- C2: for a valid input state, sensible_heat fails at or below the 1e-9
mass-flow gate, and every state it returns keeps the input humidity ratio
and carries enthalpy `h_in + q_watts / mass_flow` (the state is solved from
the `{h, w}` pair, which the adapter echoes back). -/
theorem sensible_heat_spec (psy : PsyLib) (s out : AirState) (q m hin win : ℚ)
    (hv : s.is_valid = true) (hh : s.h = some hin) (hw : s.w = some win) :
    (m ≤ EPS_FLOW → sensible_heat psy s q m = none) ∧
    (sensible_heat psy s q m = some out →
      out.w = some win ∧ out.h = some (hin + q / m)) := by
  constructor
  · intro hle
    simp [sensible_heat, hv, hle]
  · intro hsome
    by_cases hle : m ≤ EPS_FLOW
    · simp [sensible_heat, hv, hle] at hsome
    · simp only [sensible_heat, hv, Bool.not_true, Bool.false_eq_true,
        if_false, if_neg hle, hh, hw] at hsome
      have h2 := update_hw_spec psy
        (AirState.make psy s.pressure (s.label ++ "_SensHeat") [])
        (hin + q / m) win
      cases hb : (AirState.update psy
          (AirState.make psy s.pressure (s.label ++ "_SensHeat") [])
          [(.h, hin + q / m), (.w, win)]).2 with
      | false =>
        rw [hb] at hsome
        simp at hsome
      | true =>
        rw [hb] at hsome
        simp only [if_true] at hsome
        obtain ⟨hh2, hw2⟩ := h2.2 hb
        rw [← Option.some.injEq] at hsome
        cases hsome
        exact ⟨hw2, hh2⟩

/-- The state sensible_heat produces from `stateA` with Q = 1000 W at
2 kg/s under the toy oracle. -/
def outSens : AirState :=
  ⟨"A_SensHeat", 101325, some 25, some 18, some (1/2), some (8/1000),
   some 50500, some 14, some (17/20)⟩

/-- Witness for C2 at Q = 1000 W, mass flow 2 kg/s. -/
theorem sensible_heat_spec_witness :
    outSens.w = some (8/1000) ∧ outSens.h = some (50000 + 1000 / 2) :=
  (sensible_heat_spec toyPsy stateA outSens 1000 2 50000 (8/1000) rfl rfl
    rfl).2 (by
      norm_num [sensible_heat, stateA, toyPsy, outSens, update_two,
        AirState.is_valid, AirState.make, AirState.update, gap_hw,
        EPS_FLOW, AirState.invalidate_state, Option.bind]
      decide)

/-- Witness for C5 at zero added water. -/
theorem steam_humidify_zero_identity_witness :
    stateA.is_valid = true ∧ EPS_FLOW < 2 ∧ ((0:ℚ) ≤ 0) ∧
    steam_humidify toyPsy stateA 2 0 = some stateA :=
  ⟨rfl, eps_lt_two, le_rfl,
   steam_humidify_zero_identity toyPsy stateA 2 0 rfl eps_lt_two le_rfl⟩

/-- Witness for C9 at mass flows 3 and 7 kg/s. -/
theorem cooling_coil_mass_flow_independent_witness :
    stateA.is_valid = true ∧ ((0:ℚ) ≤ 1/2 ∧ (1:ℚ)/2 ≤ 1) ∧
    cooling_coil_simplified toyPsy stateA 3 11 (1/2) =
      cooling_coil_simplified toyPsy stateA 7 11 (1/2) :=
  ⟨rfl, by norm_num,
   cooling_coil_mass_flow_independent toyPsy stateA 3 7 11 (1/2) rfl
     (by norm_num)⟩

/-- `update` never writes the stored pressure, on any path. -/
theorem update_pressure (psy : PsyLib) (s : AirState) (kwargs : Kwargs) :
    (AirState.update psy s kwargs).1.pressure = s.pressure := by
  unfold AirState.update
  split
  · rfl
  · split
    · rfl
    · split <;> rfl

/-- C4: cooling_coil_simplified interpolates `w` and `h` between the ADP
reference and the inlet as `adp + BF·(in − adp)`; with BF = 1 a returned
state equals the input in `w` and `h`, with BF = 0 it carries exactly the
ADP reference's `w`, `h` and pressure; a bypass factor outside [0,1] fails
under every oracle, i.e. before any solver call on the input. -/
theorem cooling_coil_interpolation_spec (psy : PsyLib) (s out : AirState)
    (m adp_t bf win hin wa ha : ℚ) (hv : s.is_valid = true)
    (hw : s.w = some win) (hh : s.h = some hin)
    (hwa : (adp_reference psy s.pressure adp_t).1.w = some wa)
    (hha : (adp_reference psy s.pressure adp_t).1.h = some ha) :
    (¬ (0 ≤ bf ∧ bf ≤ 1) → ∀ psy2 : PsyLib,
      cooling_coil_simplified psy2 s m adp_t bf = none) ∧
    (cooling_coil_simplified psy s m adp_t bf = some out →
      out.w = some (wa + bf * (win - wa)) ∧
      out.h = some (ha + bf * (hin - ha)) ∧ out.pressure = s.pressure) ∧
    (bf = 1 → cooling_coil_simplified psy s m adp_t bf = some out →
      out.w = some win ∧ out.h = some hin) ∧
    (bf = 0 → cooling_coil_simplified psy s m adp_t bf = some out →
      out.w = (adp_reference psy s.pressure adp_t).1.w ∧
      out.h = (adp_reference psy s.pressure adp_t).1.h ∧
      out.pressure = (adp_reference psy s.pressure adp_t).1.pressure) := by
  have hmain : cooling_coil_simplified psy s m adp_t bf = some out →
      out.w = some (wa + bf * (win - wa)) ∧
      out.h = some (ha + bf * (hin - ha)) ∧ out.pressure = s.pressure := by
    intro hsome
    by_cases hbf : (0 ≤ bf ∧ bf ≤ 1)
    · simp only [cooling_coil_simplified, hv, Bool.not_true,
        Bool.false_eq_true, if_false, if_neg (not_not_intro hbf), hw,
        hh] at hsome
      cases hav : (adp_reference psy s.pressure adp_t).2 with
      | false =>
        rw [hav] at hsome
        simp at hsome
      | true =>
        rw [hav] at hsome
        simp only [Bool.not_true, Bool.false_eq_true, if_false] at hsome
        rw [hwa, hha] at hsome
        dsimp only at hsome
        have h2 := update_hw_spec psy
          (AirState.make psy s.pressure (s.label ++ "_CoilOut") [])
          (ha + bf * (hin - ha)) (wa + bf * (win - wa))
        cases hb : (AirState.update psy
            (AirState.make psy s.pressure (s.label ++ "_CoilOut") [])
            [(.h, ha + bf * (hin - ha)), (.w, wa + bf * (win - wa))]).2 with
        | false =>
          rw [hb] at hsome
          simp at hsome
        | true =>
          rw [hb] at hsome
          simp only [if_true] at hsome
          obtain ⟨hh2, hw2⟩ := h2.2 hb
          rw [← Option.some.injEq] at hsome
          cases hsome
          refine ⟨hw2, hh2, ?_⟩
          rw [h2.1]
          rfl
    · simp [cooling_coil_simplified, hv, hbf] at hsome
  refine ⟨?_, hmain, ?_, ?_⟩
  · intro hbf psy2
    simp [cooling_coil_simplified, hbf]
  · intro hbf1 hsome
    obtain ⟨hw2, hh2, _⟩ := hmain hsome
    subst hbf1
    constructor
    · rw [hw2]; ring_nf
    · rw [hh2]; ring_nf
  · intro hbf0 hsome
    obtain ⟨hw2, hh2, hp2⟩ := hmain hsome
    subst hbf0
    refine ⟨?_, ?_, ?_⟩
    · rw [hw2, hwa]; ring_nf
    · rw [hh2, hha]; ring_nf
    · rw [hp2, adp_reference, update_pressure]
      rfl

/-- The state the cooling coil produces from `stateA` with ADP 11 °C and
BF = 1/2 under the toy oracle. -/
def outCoil : AirState :=
  ⟨"A_CoilOut", 101325, some 25, some 18, some (1/2), some (8/1000),
   some 50000, some 14, some (17/20)⟩

/-- Witness for C4 at ADP 11 °C, BF = 1/2, mass flow 3 kg/s. -/
theorem cooling_coil_interpolation_spec_witness :
    outCoil.w = some (8/1000 + 1/2 * (8/1000 - 8/1000)) ∧
    outCoil.h = some (50000 + 1/2 * (50000 - 50000)) ∧
    outCoil.pressure = stateA.pressure :=
  (cooling_coil_interpolation_spec toyPsy stateA outCoil 3 11 (1/2)
    (8/1000) 50000 (8/1000) 50000 rfl rfl rfl rfl rfl).2.1 (by
      norm_num [cooling_coil_simplified, adp_reference, stateA, toyPsy,
        outCoil, update_two, AirState.is_valid, AirState.make,
        AirState.update, gap_tdb_rh, gap_hw, AirState.invalidate_state,
        Option.bind]
      decide)

/-- C1 counterexample: updating a populated state with zero named properties
is not an invalidating failure path — the fields keep their old values and
the call reports the current validity. -/
theorem update_zero_kwargs_keeps_fields :
    (AirState.update toyPsy stateA []).1.tdb = some 25 ∧
    (AirState.update toyPsy stateA []).1 ≠ stateA.invalidate_state ∧
    (AirState.update toyPsy stateA []).2 = true :=
  ⟨rfl, by decide, rfl⟩

/-- C1 (amended): the stored pressure is never changed by any update; a
zero-property call is a no-op returning current validity; every other
failure path — a property count other than two, or a solver failure — resets
all seven properties to absent together; a solver success replaces all seven
together from the single solver result. -/
theorem airstate_update_atomicity (psy : PsyLib) (s : AirState)
    (kwargs : Kwargs) :
    ((AirState.update psy s kwargs).1.pressure = s.pressure) ∧
    (kwargs = [] → AirState.update psy s kwargs = (s, s.is_valid)) ∧
    (kwargs ≠ [] → kwargs.length ≠ 2 →
      AirState.update psy s kwargs = (s.invalidate_state, false)) ∧
    (kwargs.length = 2 → get_all_properties psy s.pressure kwargs = none →
      AirState.update psy s kwargs = (s.invalidate_state, false)) ∧
    (∀ p : FullProps, kwargs.length = 2 →
      get_all_properties psy s.pressure kwargs = some p →
      (AirState.update psy s kwargs).1.tdb = some p.tdb ∧
      (AirState.update psy s kwargs).1.twb = some p.twb ∧
      (AirState.update psy s kwargs).1.rh = some p.rh ∧
      (AirState.update psy s kwargs).1.w = some p.w ∧
      (AirState.update psy s kwargs).1.h = some p.h ∧
      (AirState.update psy s kwargs).1.tdp = some p.tdp ∧
      (AirState.update psy s kwargs).1.v = some p.v) := by
  refine ⟨update_pressure psy s kwargs, ?_, ?_, ?_, ?_⟩
  · intro he
    subst he
    rfl
  · intro hne hlen
    have hemp : kwargs.isEmpty = false := by
      cases kwargs with
      | nil => exact absurd rfl hne
      | cons a l => rfl
    simp [AirState.update, hemp, hlen]
  · intro hlen hgap
    have hemp : kwargs.isEmpty = false := by
      cases kwargs with
      | nil => simp at hlen
      | cons a l => rfl
    simp [AirState.update, hemp, hlen, hgap]
  · intro p hlen hgap
    have hemp : kwargs.isEmpty = false := by
      cases kwargs with
      | nil => simp at hlen
      | cons a l => rfl
    simp [AirState.update, hemp, hlen, hgap]

/-- Witness for C1 (amended) at an empty and a one-element kwargs list. -/
theorem airstate_update_atomicity_witness :
    AirState.update toyPsy stateA [] = (stateA, stateA.is_valid) ∧
    AirState.update toyPsy stateA [(.tdb, 1)] =
      (stateA.invalidate_state, false) :=
  ⟨(airstate_update_atomicity toyPsy stateA []).2.1 rfl,
   (airstate_update_atomicity toyPsy stateA [(.tdb, 1)]).2.2.1
     (by decide) (by decide)⟩

/-- Helper: any state mix_air returns carries the flow-weighted `w` and `h`
of its two (valid) inputs. -/
theorem mix_air_fields (psy : PsyLib) (a b out : AirState)
    (fa fb wa ha wb hb : ℚ) (hva : a.is_valid = true)
    (hvb : b.is_valid = true) (hfa : 0 ≤ fa) (hfb : 0 ≤ fb)
    (htot : EPS_FLOW < fa + fb) (hwa : a.w = some wa) (hha : a.h = some ha)
    (hwb : b.w = some wb) (hhb : b.h = some hb)
    (hsome : mix_air psy a fa b fb = some out) :
    out.w = some ((fa * wa + fb * wb) / (fa + fb)) ∧
    out.h = some ((fa * ha + fb * hb) / (fa + fb)) := by
  have hneg : ¬ (fa < 0 ∨ fb < 0) := by
    push_neg
    exact ⟨hfa, hfb⟩
  simp only [mix_air, hva, hvb, Bool.and_self, Bool.not_true,
    Bool.false_eq_true, if_false, if_neg hneg,
    if_neg (not_le.mpr htot), hwa, hha, hwb, hhb] at hsome
  have h2 := update_hw_spec psy (AirState.make psy a.pressure "Mixed Air" [])
    ((fa * ha + fb * hb) / (fa + fb)) ((fa * wa + fb * wb) / (fa + fb))
  cases hb2 : (AirState.update psy (AirState.make psy a.pressure "Mixed Air" [])
      [(.h, (fa * ha + fb * hb) / (fa + fb)),
       (.w, (fa * wa + fb * wb) / (fa + fb))]).2 with
  | false =>
    rw [hb2] at hsome
    simp at hsome
  | true =>
    rw [hb2] at hsome
    simp only [if_true] at hsome
    obtain ⟨hh2, hw2⟩ := h2.2 hb2
    rw [← Option.some.injEq] at hsome
    cases hsome
    exact ⟨hw2, hh2⟩

/-- C3 (amended): mix_air computes the flow-weighted averages of `w` and
`h`; with equal stream pressures the two argument orders return identical
results; with unequal pressures the mixture is solved at the first stream's
pressure, so success can differ between the orders, but whenever both orders
return states those agree exactly in `w` and `h`. -/
theorem mix_air_spec (psy : PsyLib) (a b outAB outBA : AirState)
    (fa fb wa ha wb hb : ℚ) (hva : a.is_valid = true)
    (hvb : b.is_valid = true) (hfa : 0 ≤ fa) (hfb : 0 ≤ fb)
    (htot : EPS_FLOW < fa + fb) (hwa : a.w = some wa) (hha : a.h = some ha)
    (hwb : b.w = some wb) (hhb : b.h = some hb) :
    (mix_air psy a fa b fb = some outAB →
      outAB.w = some ((fa * wa + fb * wb) / (fa + fb)) ∧
      outAB.h = some ((fa * ha + fb * hb) / (fa + fb))) ∧
    (a.pressure = b.pressure → mix_air psy a fa b fb = mix_air psy b fb a fa) ∧
    (mix_air psy a fa b fb = some outAB → mix_air psy b fb a fa = some outBA →
      outAB.w = outBA.w ∧ outAB.h = outBA.h) := by
  have htot2 : EPS_FLOW < fb + fa := by rw [add_comm]; exact htot
  have hneg1 : ¬ (fa < 0 ∨ fb < 0) := by push_neg; exact ⟨hfa, hfb⟩
  have hneg2 : ¬ (fb < 0 ∨ fa < 0) := by push_neg; exact ⟨hfb, hfa⟩
  have e1 : (fb * wb + fa * wa) / (fb + fa) = (fa * wa + fb * wb) / (fa + fb) := by
    rw [add_comm fb fa, add_comm (fb * wb) (fa * wa)]
  have e2 : (fb * hb + fa * ha) / (fb + fa) = (fa * ha + fb * hb) / (fa + fb) := by
    rw [add_comm fb fa, add_comm (fb * hb) (fa * ha)]
  refine ⟨mix_air_fields psy a b outAB fa fb wa ha wb hb hva hvb hfa hfb
    htot hwa hha hwb hhb, ?_, ?_⟩
  · intro hp
    simp only [mix_air, hva, hvb, Bool.and_self, Bool.not_true,
      Bool.false_eq_true, if_false, if_neg hneg1, if_neg hneg2,
      if_neg (not_le.mpr htot), if_neg (not_le.mpr htot2), hwa, hha, hwb,
      hhb, e1, e2, hp]
  · intro h1 h2
    obtain ⟨hw1, hh1⟩ := mix_air_fields psy a b outAB fa fb wa ha wb hb
      hva hvb hfa hfb htot hwa hha hwb hhb h1
    obtain ⟨hw2, hh2⟩ := mix_air_fields psy b a outBA fb fa wb hb wa ha
      hvb hva hfb hfa htot2 hwb hhb hwa hha h2
    constructor
    · rw [hw1, hw2, e1]
    · rw [hh1, hh2, e2]

/-- An oracle whose relative-humidity inversion only succeeds at standard
pressure: it models a solver whose physical envelope depends on pressure. -/
def mixPsy : PsyLib :=
  { toyPsy with getRelHumFromHumRatio :=
      fun _ _ p => if p = 101325 then some (1/2) else none }

/-- The mixed state of `stateA` and `stateB` at equal unit flows under
`mixPsy`, solved at `stateA`'s pressure. -/
def outMixAB : AirState :=
  ⟨"Mixed Air", 101325, some 25, some 18, some (1/2), some (1/100),
   some 55000, some 14, some (17/20)⟩

/-- C3 counterexample: mixing two valid states of different pressures with
equal unit flows succeeds in one argument order and fails in the other, so
the two orders do not yield the same `w`. -/
theorem mix_air_comm_counterexample :
    ¬ ((mix_air mixPsy stateA 1 stateB 1).map AirState.w =
        (mix_air mixPsy stateB 1 stateA 1).map AirState.w) := by
  have h1 : mix_air mixPsy stateA 1 stateB 1 = some outMixAB := by
    norm_num [mix_air, stateA, stateB, mixPsy, toyPsy, outMixAB, update_two,
      AirState.is_valid, AirState.make, AirState.update, gap_hw, EPS_FLOW,
      AirState.invalidate_state, Option.bind]
  have h2 : mix_air mixPsy stateB 1 stateA 1 = none := by
    norm_num [mix_air, stateA, stateB, mixPsy, toyPsy, update_two,
      AirState.is_valid, AirState.make, AirState.update, gap_hw, EPS_FLOW,
      AirState.invalidate_state, Option.bind]
  rw [h1, h2]
  simp

/-- A second concrete valid air state at standard pressure. -/
def stateC : AirState :=
  ⟨"C", 101325, some 30, some 20, some (3/5), some (12/1000), some 60000,
   some 16, some (9/10)⟩

/-- Witness for C3 (amended): equal-pressure mixing commutes exactly. -/
theorem mix_air_spec_witness :
    mix_air toyPsy stateA 1 stateC 1 = mix_air toyPsy stateC 1 stateA 1 :=
  (mix_air_spec toyPsy stateA stateC stateA stateA 1 1 (8/1000) 50000
    (12/1000) 60000 rfl rfl (by norm_num) (by norm_num)
    (by norm_num [EPS_FLOW]) rfl rfl rfl rfl).2.1 rfl

/-- Helper: the shared process-line body on any lookup with two present,
valid endpoints returns `none` exactly on numerically indistinguishable
endpoints, and the two-element list otherwise. -/
theorem process_line_of_spec (lookup : String → Option AirState)
    (a b : String) (sa sb : AirState) (sh eh sw ew : ℚ)
    (hva : sa.is_valid = true) (hvb : sb.is_valid = true)
    (hsh : sa.h = some sh) (heh : sb.h = some eh)
    (hsw : sa.w = some sw) (hew : sb.w = some ew)
    (hla : lookup a = some sa) (hlb : lookup b = some sb) :
    ((|sh - eh| < 10 ∧ |sw - ew| < 1/1000000) →
      process_line_of lookup a b = none) ∧
    (¬ (|sh - eh| < 10 ∧ |sw - ew| < 1/1000000) →
      process_line_of lookup a b = some [sa, sb]) := by
  unfold process_line_of
  rw [hla, hlb]
  simp only [hva, hvb, Bool.and_self, if_true, hsh, heh, hsw, hew]
  constructor
  · intro hsmall
    rw [if_pos hsmall]
  · intro hbig
    rw [if_neg hbig]

/-- C6: on both system models, get_process_line for two slots holding valid
states returns `none` when `|Δh| < 10` and `|Δw| < 1e-6`, and the
two-element sequence of the endpoint states otherwise. -/
theorem get_process_line_spec (a b : String) (sa sb : AirState)
    (sh eh sw ew : ℚ) (hva : sa.is_valid = true) (hvb : sb.is_valid = true)
    (hsh : sa.h = some sh) (heh : sb.h = some eh)
    (hsw : sa.w = some sw) (hew : sb.w = some ew) :
    ∀ (m : AHUModel) (f : FCUModel),
      (m.get_state a = some sa → m.get_state b = some sb →
        ((|sh - eh| < 10 ∧ |sw - ew| < 1/1000000) →
          m.get_process_line a b = none) ∧
        (¬ (|sh - eh| < 10 ∧ |sw - ew| < 1/1000000) →
          m.get_process_line a b = some [sa, sb])) ∧
      (f.get_state a = some sa → f.get_state b = some sb →
        ((|sh - eh| < 10 ∧ |sw - ew| < 1/1000000) →
          f.get_process_line a b = none) ∧
        (¬ (|sh - eh| < 10 ∧ |sw - ew| < 1/1000000) →
          f.get_process_line a b = some [sa, sb])) := by
  intro m f
  constructor
  · intro hla hlb
    exact process_line_of_spec m.get_state a b sa sb sh eh sw ew hva hvb
      hsh heh hsw hew hla hlb
  · intro hla hlb
    exact process_line_of_spec f.get_state a b sa sb sh eh sw ew hva hvb
      hsh heh hsw hew hla hlb

/-- An AHU table holding two distinguishable valid states. -/
def ahuW : AHUModel :=
  ⟨101325, ⟨some stateA, some stateC, none, none, none, none, none⟩⟩

/-- An FCU table holding two distinguishable valid states. -/
def fcuW : FCUModel :=
  ⟨101325, ⟨some stateA, some stateC, none⟩⟩

/-- Witness for C6: distinguishable endpoints yield the two-element line on
both models. -/
theorem get_process_line_spec_witness :
    ahuW.get_process_line "OA" "RA" = some [stateA, stateC] ∧
    fcuW.get_process_line "Entering" "Coil_Out" = some [stateA, stateC] :=
  ⟨((get_process_line_spec "OA" "RA" stateA stateC 50000 60000 (8/1000)
      (12/1000) rfl rfl rfl rfl rfl rfl ahuW fcuW).1
     (by simp [ahuW, AHUModel.get_state, AHUStates.get])
     (by simp [ahuW, AHUModel.get_state, AHUStates.get])).2 (by norm_num),
   ((get_process_line_spec "Entering" "Coil_Out" stateA stateC 50000 60000
      (8/1000) (12/1000) rfl rfl rfl rfl rfl rfl ahuW fcuW).2
     (by simp [fcuW, FCUModel.get_state, FCUStates.get])
     (by simp [fcuW, FCUModel.get_state, FCUStates.get])).2 (by norm_num)⟩

/-- C7: on both system models, setting inlet conditions succeeds exactly
when every freshly constructed inlet state is valid; on failure the table is
fully reset, and even on success every non-inlet slot is absent — no state
from before the call survives in any slot. -/
theorem set_inlet_spec (psy : PsyLib) (m : AHUModel) (f : FCUModel)
    (oa_tdb oa_rh ra_tdb ra_rh tdb0 rh0 : ℚ) (lbl : String) :
    ((AHUModel.set_inlet_conditions psy m oa_tdb oa_rh ra_tdb ra_rh).2 = true ↔
      (AirState.make psy m.pressure "OA"
        [(.tdb, oa_tdb), (.rh, oa_rh)]).is_valid = true ∧
      (AirState.make psy m.pressure "RA"
        [(.tdb, ra_tdb), (.rh, ra_rh)]).is_valid = true) ∧
    ((AHUModel.set_inlet_conditions psy m oa_tdb oa_rh ra_tdb ra_rh).2 = false →
      (AHUModel.set_inlet_conditions psy m oa_tdb oa_rh ra_tdb ra_rh).1.states =
        resetAHUStates) ∧
    ((AHUModel.set_inlet_conditions psy m oa_tdb oa_rh ra_tdb ra_rh).2 = true →
      (AHUModel.set_inlet_conditions psy m oa_tdb oa_rh ra_tdb ra_rh).1.states =
        ⟨some (AirState.make psy m.pressure "OA" [(.tdb, oa_tdb), (.rh, oa_rh)]),
         some (AirState.make psy m.pressure "RA" [(.tdb, ra_tdb), (.rh, ra_rh)]),
         none, none, none, none, none⟩) ∧
    ((FCUModel.set_entering_air psy f tdb0 rh0 lbl).2 = true ↔
      (AirState.make psy f.pressure lbl [(.tdb, tdb0), (.rh, rh0)]).is_valid = true) ∧
    ((FCUModel.set_entering_air psy f tdb0 rh0 lbl).2 = false →
      (FCUModel.set_entering_air psy f tdb0 rh0 lbl).1.states = resetFCUStates) ∧
    ((FCUModel.set_entering_air psy f tdb0 rh0 lbl).2 = true →
      (FCUModel.set_entering_air psy f tdb0 rh0 lbl).1.states =
        ⟨some (AirState.make psy f.pressure lbl [(.tdb, tdb0), (.rh, rh0)]),
         none, none⟩) := by
  cases hoa : (AirState.make psy m.pressure "OA"
      [(.tdb, oa_tdb), (.rh, oa_rh)]).is_valid with
  | false =>
    cases hra : (AirState.make psy m.pressure "RA"
        [(.tdb, ra_tdb), (.rh, ra_rh)]).is_valid with
    | false =>
      cases hent : (AirState.make psy f.pressure lbl
          [(.tdb, tdb0), (.rh, rh0)]).is_valid with
      | false =>
        simp [AHUModel.set_inlet_conditions, FCUModel.set_entering_air,
          hoa, hra, hent, resetAHUStates, resetFCUStates]
      | true =>
        simp [AHUModel.set_inlet_conditions, FCUModel.set_entering_air,
          hoa, hra, hent, resetAHUStates, resetFCUStates]
    | true =>
      cases hent : (AirState.make psy f.pressure lbl
          [(.tdb, tdb0), (.rh, rh0)]).is_valid with
      | false =>
        simp [AHUModel.set_inlet_conditions, FCUModel.set_entering_air,
          hoa, hra, hent, resetAHUStates, resetFCUStates]
      | true =>
        simp [AHUModel.set_inlet_conditions, FCUModel.set_entering_air,
          hoa, hra, hent, resetAHUStates, resetFCUStates]
  | true =>
    cases hra : (AirState.make psy m.pressure "RA"
        [(.tdb, ra_tdb), (.rh, ra_rh)]).is_valid with
    | false =>
      cases hent : (AirState.make psy f.pressure lbl
          [(.tdb, tdb0), (.rh, rh0)]).is_valid with
      | false =>
        simp [AHUModel.set_inlet_conditions, FCUModel.set_entering_air,
          hoa, hra, hent, resetAHUStates, resetFCUStates]
      | true =>
        simp [AHUModel.set_inlet_conditions, FCUModel.set_entering_air,
          hoa, hra, hent, resetAHUStates, resetFCUStates]
    | true =>
      cases hent : (AirState.make psy f.pressure lbl
          [(.tdb, tdb0), (.rh, rh0)]).is_valid with
      | false =>
        simp [AHUModel.set_inlet_conditions, FCUModel.set_entering_air,
          hoa, hra, hent, resetAHUStates, resetFCUStates]
      | true =>
        simp [AHUModel.set_inlet_conditions, FCUModel.set_entering_air,
          hoa, hra, hent, resetAHUStates, resetFCUStates]

/-- An AHU model with stale content in a downstream slot. -/
def ahuPrior : AHUModel :=
  ⟨101325, ⟨none, none, none, none, none, none, some stateC⟩⟩

/-- An FCU model with stale content in a downstream slot. -/
def fcuPrior : FCUModel := ⟨101325, ⟨none, none, some stateC⟩⟩

/-- Witness for C7: a successful inlet update wipes stale downstream slots
on both models. -/
theorem set_inlet_spec_witness :
    (AHUModel.set_inlet_conditions toyPsy ahuPrior 25 (1/2) 20 (2/5)).1.states =
      ⟨some (AirState.make toyPsy ahuPrior.pressure "OA"
          [(.tdb, 25), (.rh, 1/2)]),
       some (AirState.make toyPsy ahuPrior.pressure "RA"
          [(.tdb, 20), (.rh, 2/5)]),
       none, none, none, none, none⟩ ∧
    (FCUModel.set_entering_air toyPsy fcuPrior 25 (1/2) "Entering").1.states =
      ⟨some (AirState.make toyPsy fcuPrior.pressure "Entering"
          [(.tdb, 25), (.rh, 1/2)]),
       none, none⟩ :=
  ⟨(set_inlet_spec toyPsy ahuPrior fcuPrior 25 (1/2) 20 (2/5) 25 (1/2)
      "Entering").2.2.1 rfl,
   (set_inlet_spec toyPsy ahuPrior fcuPrior 25 (1/2) 20 (2/5) 25 (1/2)
      "Entering").2.2.2.2.2 rfl⟩

/-- Helper: a successful optional heat step touches only `HC_Out`, stores
the step's current state there, and passes the prior state through when the
heat is non-positive. -/
theorem ahuHeatStep_ok (psy : PsyLib) (total q : ℚ) (s s' : AHUStates)
    (cur cur' : AirState) (hok : ahuHeatStep psy total q s cur = .ok s' cur') :
    s'.OA = s.OA ∧ s'.RA = s.RA ∧ s'.MA = s.MA ∧ s'.CC_Out = s.CC_Out ∧
    s'.HUM_Out = s.HUM_Out ∧ s'.SA = s.SA ∧ s'.HC_Out = some cur' ∧
    (q ≤ 0 → cur' = cur) := by
  unfold ahuHeatStep at hok
  split at hok
  · rename_i hq
    cases hres : sensible_heat psy cur q total with
    | none =>
      rw [hres] at hok
      simp at hok
    | some st =>
      rw [hres] at hok
      simp only [StepRes.ok.injEq] at hok
      obtain ⟨h1, h2⟩ := hok
      subst h1
      subst h2
      exact ⟨rfl, rfl, rfl, rfl, rfl, rfl, rfl,
        fun hle => absurd hq (not_lt.mpr hle)⟩
  · simp only [StepRes.ok.injEq] at hok
    obtain ⟨h1, h2⟩ := hok
    subst h1
    subst h2
    exact ⟨rfl, rfl, rfl, rfl, rfl, rfl, rfl, fun _ => rfl⟩

/-- Helper: a successful humidifier step touches only `HUM_Out`, stores the
step's current state there, and passes the prior state through when neither
humidifier branch is selected. -/
theorem ahuHumidStep_ok (psy : PsyLib) (total : ℚ) (ht : String) (hp : ℚ)
    (s s' : AHUStates) (cur cur' : AirState)
    (hok : ahuHumidStep psy total ht hp s cur = .ok s' cur') :
    s'.OA = s.OA ∧ s'.RA = s.RA ∧ s'.MA = s.MA ∧ s'.CC_Out = s.CC_Out ∧
    s'.HC_Out = s.HC_Out ∧ s'.SA = s.SA ∧ s'.HUM_Out = some cur' ∧
    (¬ (ht = "Steam" ∧ hp > 0) ∧ ¬ (ht = "Adiabatic" ∧ hp > 0) →
      cur' = cur) := by
  unfold ahuHumidStep at hok
  split at hok
  · rename_i hcond
    cases hres : steam_humidify psy cur total hp with
    | none =>
      rw [hres] at hok
      simp at hok
    | some st =>
      rw [hres] at hok
      simp only [StepRes.ok.injEq] at hok
      obtain ⟨h1, h2⟩ := hok
      subst h1
      subst h2
      exact ⟨rfl, rfl, rfl, rfl, rfl, rfl, rfl,
        fun hno => absurd hcond hno.1⟩
  · split at hok
    · simp at hok
    · simp only [StepRes.ok.injEq] at hok
      obtain ⟨h1, h2⟩ := hok
      subst h1
      subst h2
      exact ⟨rfl, rfl, rfl, rfl, rfl, rfl, rfl, fun _ => rfl⟩

/-- Helper: a successful fan step touches only `SA`, stores the step's
current state there, and passes the prior state through for non-positive
fan heat. -/
theorem ahuFanStep_ok (psy : PsyLib) (total fq : ℚ) (s s' : AHUStates)
    (cur cur' : AirState)
    (hok : ahuFanStep psy total fq s cur = .ok s' cur') :
    s'.OA = s.OA ∧ s'.RA = s.RA ∧ s'.MA = s.MA ∧ s'.CC_Out = s.CC_Out ∧
    s'.HC_Out = s.HC_Out ∧ s'.HUM_Out = s.HUM_Out ∧ s'.SA = some cur' ∧
    (fq ≤ 0 → cur' = cur) := by
  unfold ahuFanStep at hok
  split at hok
  · rename_i hq
    cases hres : sensible_heat psy cur fq total with
    | none =>
      rw [hres] at hok
      simp at hok
    | some st =>
      rw [hres] at hok
      simp only [StepRes.ok.injEq] at hok
      obtain ⟨h1, h2⟩ := hok
      subst h1
      subst h2
      exact ⟨rfl, rfl, rfl, rfl, rfl, rfl, rfl,
        fun hle => absurd hq (not_lt.mpr hle)⟩
  · simp only [StepRes.ok.injEq] at hok
    obtain ⟨h1, h2⟩ := hok
    subst h1
    subst h2
    exact ⟨rfl, rfl, rfl, rfl, rfl, rfl, rfl, fun _ => rfl⟩



/-- Helper: a cooling-cycle run that returns `True` has populated every
pipeline slot, with pass-through assignment at each skipped optional step. -/
theorem run_cooling_success (psy : PsyLib) (m m' : AHUModel)
    (oam ram adp bf rq : ℚ) (ht : String) (hp fq : ℚ)
    (hrun : AHUModel.run_cooling_cycle psy m oam ram adp bf rq ht hp fq =
      some (m', true)) :
    m'.states.MA.isSome = true ∧ m'.states.CC_Out.isSome = true ∧
    m'.states.HC_Out.isSome = true ∧ m'.states.HUM_Out.isSome = true ∧
    m'.states.SA.isSome = true ∧
    (rq ≤ 0 → m'.states.HC_Out = m'.states.CC_Out) ∧
    (¬ (ht = "Steam" ∧ hp > 0) ∧ ¬ (ht = "Adiabatic" ∧ hp > 0) →
      m'.states.HUM_Out = m'.states.HC_Out) ∧
    (fq ≤ 0 → m'.states.SA = m'.states.HUM_Out) := by
  unfold AHUModel.run_cooling_cycle at hrun
  split at hrun
  · dsimp only at hrun
    split at hrun
    · simp at hrun
    · split at hrun
      next hmix => simp at hrun
      next ma hmix =>
        split at hrun
        next hcool => simp at hrun
        next cc hcool =>
          split at hrun
          next hheat => simp at hrun
          next sx hheat => simp at hrun
          next s3 cur3 hheat =>
            split at hrun
            next hhumid => simp at hrun
            next sx hhumid => simp at hrun
            next s4 cur4 hhumid =>
              split at hrun
              next hfan => simp at hrun
              next sx hfan => simp at hrun
              next s5 cur5 hfan =>
                simp only [Option.some.injEq, Prod.mk.injEq,
                  and_true] at hrun
                subst hrun
                obtain ⟨_, _, hMA3, hCC3, hHUM3, _, hHC3, hcur3⟩ :=
                  ahuHeatStep_ok psy (oam + ram) rq _ s3 cc cur3 hheat
                obtain ⟨_, _, hMA4, hCC4, hHC4, _, hHUM4, hcur4⟩ :=
                  ahuHumidStep_ok psy (oam + ram) ht hp s3 s4 cur3 cur4
                    hhumid
                obtain ⟨_, _, hMA5, hCC5, hHC5, hHUM5, hSA5, hcur5⟩ :=
                  ahuFanStep_ok psy (oam + ram) fq s4 s5 cur4 cur5 hfan
                refine ⟨?_, ?_, ?_, ?_, ?_, ?_, ?_, ?_⟩
                · rw [hMA5, hMA4, hMA3]
                  simp [hmix]
                · rw [hCC5, hCC4, hCC3]
                  simp [hcool]
                · rw [hHC5, hHC4, hHC3]
                  rfl
                · rw [hHUM5, hHUM4]
                  rfl
                · rw [hSA5]
                  rfl
                · intro hle
                  rw [hHC5, hHC4, hHC3, hcur3 hle, hCC5, hCC4, hCC3]
                  simp [hcool]
                · intro hno
                  rw [hHUM5, hHUM4, hcur4 hno, hHC5, hHC4, hHC3]
                · intro hle
                  rw [hSA5, hcur5 hle, hHUM5, hHUM4]
  · simp at hrun

/-- Helper: a heating-cycle run that returns `True` has populated every
pipeline slot, the bypassed cooling coil slot holding the mixed-air state,
with pass-through assignment at each skipped optional step. -/
theorem run_heating_success (psy : PsyLib) (m m' : AHUModel)
    (oam ram hq : ℚ) (ht : String) (hp fq : ℚ)
    (hrun : AHUModel.run_heating_cycle psy m oam ram hq ht hp fq =
      some (m', true)) :
    m'.states.MA.isSome = true ∧ m'.states.CC_Out.isSome = true ∧
    m'.states.HC_Out.isSome = true ∧ m'.states.HUM_Out.isSome = true ∧
    m'.states.SA.isSome = true ∧
    m'.states.CC_Out = m'.states.MA ∧
    (hq ≤ 0 → m'.states.HC_Out = m'.states.CC_Out) ∧
    (¬ (ht = "Steam" ∧ hp > 0) ∧ ¬ (ht = "Adiabatic" ∧ hp > 0) →
      m'.states.HUM_Out = m'.states.HC_Out) ∧
    (fq ≤ 0 → m'.states.SA = m'.states.HUM_Out) := by
  unfold AHUModel.run_heating_cycle at hrun
  split at hrun
  · dsimp only at hrun
    split at hrun
    · simp at hrun
    · split at hrun
      next hmix => simp at hrun
      next ma hmix =>
        split at hrun
        next hheat => simp at hrun
        next sx hheat => simp at hrun
        next s3 cur3 hheat =>
          split at hrun
          next hhumid => simp at hrun
          next sx hhumid => simp at hrun
          next s4 cur4 hhumid =>
            split at hrun
            next hfan => simp at hrun
            next sx hfan => simp at hrun
            next s5 cur5 hfan =>
              simp only [Option.some.injEq, Prod.mk.injEq,
                and_true] at hrun
              subst hrun
              obtain ⟨_, _, hMA3, hCC3, hHUM3, _, hHC3, hcur3⟩ :=
                ahuHeatStep_ok psy (oam + ram) hq _ s3 ma cur3 hheat
              obtain ⟨_, _, hMA4, hCC4, hHC4, _, hHUM4, hcur4⟩ :=
                ahuHumidStep_ok psy (oam + ram) ht hp s3 s4 cur3 cur4
                  hhumid
              obtain ⟨_, _, hMA5, hCC5, hHC5, hHUM5, hSA5, hcur5⟩ :=
                ahuFanStep_ok psy (oam + ram) fq s4 s5 cur4 cur5 hfan
              refine ⟨?_, ?_, ?_, ?_, ?_, ?_, ?_, ?_, ?_⟩
              · rw [hMA5, hMA4, hMA3]
                simp [hmix]
              · rw [hCC5, hCC4, hCC3]
                rfl
              · rw [hHC5, hHC4, hHC3]
                rfl
              · rw [hHUM5, hHUM4]
                rfl
              · rw [hSA5]
                rfl
              · rw [hCC5, hCC4, hCC3, hMA5, hMA4, hMA3]
                simp [hmix]
              · intro hle
                rw [hHC5, hHC4, hHC3, hcur3 hle, hCC5, hCC4, hCC3]
              · intro hno
                rw [hHUM5, hHUM4, hcur4 hno, hHC5, hHC4, hHC3]
              · intro hle
                rw [hSA5, hcur5 hle, hHUM5, hHUM4]
  · simp at hrun

/-- C8: every successful AHU cooling or heating run populates all five
pipeline slots (MA, CC_Out, HC_Out, HUM_Out, SA); each skipped optional
step — reheat or heating with non-positive Q, no humidification, no fan
heat, and the bypassed cooling coil in heating mode — fills its slot with
the prior step's state. -/
theorem cycles_populate_all_slots (psy : PsyLib) (m mc mh : AHUModel)
    (oam ram adp bf rq hq : ℚ) (ht : String) (hp fq : ℚ) :
    (AHUModel.run_cooling_cycle psy m oam ram adp bf rq ht hp fq =
        some (mc, true) →
      mc.states.MA.isSome = true ∧ mc.states.CC_Out.isSome = true ∧
      mc.states.HC_Out.isSome = true ∧ mc.states.HUM_Out.isSome = true ∧
      mc.states.SA.isSome = true ∧
      (rq ≤ 0 → mc.states.HC_Out = mc.states.CC_Out) ∧
      (¬ (ht = "Steam" ∧ hp > 0) ∧ ¬ (ht = "Adiabatic" ∧ hp > 0) →
        mc.states.HUM_Out = mc.states.HC_Out) ∧
      (fq ≤ 0 → mc.states.SA = mc.states.HUM_Out)) ∧
    (AHUModel.run_heating_cycle psy m oam ram hq ht hp fq =
        some (mh, true) →
      mh.states.MA.isSome = true ∧ mh.states.CC_Out.isSome = true ∧
      mh.states.HC_Out.isSome = true ∧ mh.states.HUM_Out.isSome = true ∧
      mh.states.SA.isSome = true ∧
      mh.states.CC_Out = mh.states.MA ∧
      (hq ≤ 0 → mh.states.HC_Out = mh.states.CC_Out) ∧
      (¬ (ht = "Steam" ∧ hp > 0) ∧ ¬ (ht = "Adiabatic" ∧ hp > 0) →
        mh.states.HUM_Out = mh.states.HC_Out) ∧
      (fq ≤ 0 → mh.states.SA = mh.states.HUM_Out)) :=
  ⟨fun h => run_cooling_success psy m mc oam ram adp bf rq ht hp fq h,
   fun h => run_heating_success psy m mh oam ram hq ht hp fq h⟩

/-- The cooling-coil outlet state of the witness cooling run. -/
def outCoil2 : AirState :=
  ⟨"Mixed Air_CoilOut", 101325, some 25, some 18, some (1/2), some (9/1000),
   some 52500, some 14, some (17/20)⟩

/-- The expected AHU model after the witness cooling run. -/
def mcW : AHUModel :=
  ⟨101325, ⟨some stateA, some stateC, some outMixAB, some outCoil2,
   some outCoil2, some outCoil2, some outCoil2⟩⟩

/-- The expected AHU model after the witness heating run. -/
def mhW : AHUModel :=
  ⟨101325, ⟨some stateA, some stateC, some outMixAB, some outMixAB,
   some outMixAB, some outMixAB, some outMixAB⟩⟩

/-- A concrete successful cooling run under the toy oracle. -/
theorem run_cooling_eval :
    AHUModel.run_cooling_cycle toyPsy ahuW 1 1 11 (1/2) 0 "None" 0 0 =
      some (mcW, true) := by
  norm_num [AHUModel.run_cooling_cycle, ahuHeatStep, ahuHumidStep,
    ahuFanStep, mix_air, cooling_coil_simplified, adp_reference,
    AirState.is_valid, AirState.make, AirState.update, update_two, gap_hw,
    gap_tdb_rh, EPS_FLOW, AirState.invalidate_state, Option.bind, ahuW,
    stateA, stateC, outMixAB, outCoil2, mcW, toyPsy]
  decide

/-- A concrete successful heating run under the toy oracle. -/
theorem run_heating_eval :
    AHUModel.run_heating_cycle toyPsy ahuW 1 1 0 "None" 0 0 =
      some (mhW, true) := by
  norm_num [AHUModel.run_heating_cycle, ahuHeatStep, ahuHumidStep,
    ahuFanStep, mix_air, AirState.is_valid, AirState.make, AirState.update,
    update_two, gap_hw, EPS_FLOW, AirState.invalidate_state, Option.bind,
    ahuW, stateA, stateC, outMixAB, mhW, toyPsy]

/-- Witness for C8 on concrete successful runs with all optional steps
skipped. -/
theorem cycles_populate_all_slots_witness :
    (mcW.states.MA.isSome = true ∧ mcW.states.SA.isSome = true ∧
      mcW.states.HC_Out = mcW.states.CC_Out) ∧
    (mhW.states.CC_Out = mhW.states.MA ∧ mhW.states.SA = mhW.states.HUM_Out) := by
  have hc := (cycles_populate_all_slots toyPsy ahuW mcW mhW 1 1 11 (1/2)
    0 0 "None" 0 0).1 run_cooling_eval
  have hh := (cycles_populate_all_slots toyPsy ahuW mcW mhW 1 1 11 (1/2)
    0 0 "None" 0 0).2 run_heating_eval
  exact ⟨⟨hc.1, hc.2.2.2.2.1, hc.2.2.2.2.2.1 le_rfl⟩,
    ⟨hh.2.2.2.2.2.1, hh.2.2.2.2.2.2.2.2 le_rfl⟩⟩

/-- Helper: a non-positive heat parameter makes the heat step equal the
zero-heat step. -/
theorem ahuHeatStep_nonpos (psy : PsyLib) (total q : ℚ) (hle : q ≤ 0) :
    ∀ (s : AHUStates) (cur : AirState),
      ahuHeatStep psy total q s cur = ahuHeatStep psy total 0 s cur := by
  intro s cur
  unfold ahuHeatStep
  rw [if_neg (not_lt.mpr hle), if_neg (lt_irrefl 0)]

/-- Helper: non-positive fan heat makes the fan step equal the zero-heat
step. -/
theorem ahuFanStep_nonpos (psy : PsyLib) (total fq : ℚ) (hle : fq ≤ 0) :
    ∀ (s : AHUStates) (cur : AirState),
      ahuFanStep psy total fq s cur = ahuFanStep psy total 0 s cur := by
  intro s cur
  unfold ahuFanStep
  rw [if_neg (not_lt.mpr hle), if_neg (lt_irrefl 0)]

/-- Helper: the FCU heating run with non-positive heating power equals the
run with zero heating power. -/
theorem fcu_heat_nonpos (psy : PsyLib) (f : FCUModel) (mf hq fq : ℚ)
    (hle : hq ≤ 0) :
    FCUModel.run_heating_cycle psy f mf hq fq =
      FCUModel.run_heating_cycle psy f mf 0 fq := by
  unfold FCUModel.run_heating_cycle
  cases f.states.Entering with
  | none => rfl
  | some e =>
    dsimp only
    simp only [if_neg (not_lt.mpr hle), if_neg (lt_irrefl (0:ℚ))]

/-- Helper: the FCU heating run with non-positive fan heat equals the run
with zero fan heat. -/
theorem fcu_fan_nonpos (psy : PsyLib) (f : FCUModel) (mf hq fq : ℚ)
    (hle : fq ≤ 0) :
    FCUModel.run_heating_cycle psy f mf hq fq =
      FCUModel.run_heating_cycle psy f mf hq 0 := by
  unfold FCUModel.run_heating_cycle
  cases f.states.Entering with
  | none => rfl
  | some e =>
    dsimp only
    simp only [if_neg (not_lt.mpr hle), if_neg (lt_irrefl (0:ℚ))]

/-- Helper: on a successful FCU heating run with non-positive heating power
the coil slot receives the entering state unchanged. -/
theorem fcu_heating_skip_slot (psy : PsyLib) (f fh : FCUModel)
    (mf hq fq : ℚ) (hle : hq ≤ 0)
    (hrun : FCUModel.run_heating_cycle psy f mf hq fq = (fh, true)) :
    fh.states.Coil_Out = f.states.Entering := by
  unfold FCUModel.run_heating_cycle at hrun
  split at hrun
  · simp at hrun
  next e hent =>
    dsimp only at hrun
    split at hrun
    · simp at hrun
    · rw [if_neg (not_lt.mpr hle)] at hrun
      dsimp only at hrun
      split at hrun
      · simp at hrun
      next sup hsup =>
        simp only [Prod.mk.injEq, and_true] at hrun
        subst hrun
        rw [hent]

/-- C10: non-positive reheat, heating or fan-heat parameters are silently
treated as skipped steps: each such run equals the run with the parameter
set to zero (so sensible_heat is never invoked with a negative Q through
these parameters), and on success the corresponding slot receives the prior
state unchanged. -/
theorem nonpositive_heat_is_skip (psy : PsyLib) (m : AHUModel)
    (f : FCUModel) (oam ram adp bf rq hq : ℚ) (ht : String)
    (hp fq mf : ℚ) :
    (rq ≤ 0 → AHUModel.run_cooling_cycle psy m oam ram adp bf rq ht hp fq =
      AHUModel.run_cooling_cycle psy m oam ram adp bf 0 ht hp fq) ∧
    (hq ≤ 0 → AHUModel.run_heating_cycle psy m oam ram hq ht hp fq =
      AHUModel.run_heating_cycle psy m oam ram 0 ht hp fq) ∧
    (fq ≤ 0 → AHUModel.run_cooling_cycle psy m oam ram adp bf rq ht hp fq =
      AHUModel.run_cooling_cycle psy m oam ram adp bf rq ht hp 0) ∧
    (hq ≤ 0 → FCUModel.run_heating_cycle psy f mf hq fq =
      FCUModel.run_heating_cycle psy f mf 0 fq) ∧
    (fq ≤ 0 → FCUModel.run_heating_cycle psy f mf hq fq =
      FCUModel.run_heating_cycle psy f mf hq 0) ∧
    (rq ≤ 0 → ∀ mc : AHUModel,
      AHUModel.run_cooling_cycle psy m oam ram adp bf rq ht hp fq =
        some (mc, true) → mc.states.HC_Out = mc.states.CC_Out) ∧
    (hq ≤ 0 → ∀ fh : FCUModel,
      FCUModel.run_heating_cycle psy f mf hq fq = (fh, true) →
        fh.states.Coil_Out = f.states.Entering) := by
  refine ⟨?_, ?_, ?_, ?_, ?_, ?_, ?_⟩
  · intro hle
    simp only [AHUModel.run_cooling_cycle,
      ahuHeatStep_nonpos psy (oam + ram) rq hle]
  · intro hle
    simp only [AHUModel.run_heating_cycle,
      ahuHeatStep_nonpos psy (oam + ram) hq hle]
  · intro hle
    simp only [AHUModel.run_cooling_cycle,
      ahuFanStep_nonpos psy (oam + ram) fq hle]
  · intro hle
    exact fcu_heat_nonpos psy f mf hq fq hle
  · intro hle
    exact fcu_fan_nonpos psy f mf hq fq hle
  · intro hle mc hrun
    exact (run_cooling_success psy m mc oam ram adp bf rq ht hp fq
      hrun).2.2.2.2.2.1 hle
  · intro hle fh hrun
    exact fcu_heating_skip_slot psy f fh mf hq fq hle hrun

/-- Witness for C10 at negative reheat and heating powers. -/
theorem nonpositive_heat_is_skip_witness :
    AHUModel.run_cooling_cycle toyPsy ahuW 1 1 11 (1/2) (-5) "None" 0 0 =
      AHUModel.run_cooling_cycle toyPsy ahuW 1 1 11 (1/2) 0 "None" 0 0 ∧
    FCUModel.run_heating_cycle toyPsy fcuW 2 (-3) 0 =
      FCUModel.run_heating_cycle toyPsy fcuW 2 0 0 :=
  ⟨(nonpositive_heat_is_skip toyPsy ahuW fcuW 1 1 11 (1/2) (-5) (-3)
      "None" 0 0 2).1 (by norm_num),
   (nonpositive_heat_is_skip toyPsy ahuW fcuW 1 1 11 (1/2) (-5) (-3)
      "None" 0 0 2).2.2.2.1 (by norm_num)⟩
